import Mathlib

/-!
Verification of the ARQV30 Enhanced v2.0 front-end scripts.

This file gives a shallow embedding, in Lean 4, of the browser-side code of
the repository: the synchronous analysis manager and asynchronous analysis
manager (static/js/analysis.js, which also carries the SQL migration for the
persisted schema), the main application shell (static/js/main.js), the file
upload manager (upload.js) and the service worker (sw.js).  JavaScript
values are modelled by the inductive type `JSVal` below, with the usual
truthiness, `typeof`, and string-interpolation semantics; DOM writes and
network requests are modelled as explicit action lists; `localStorage` is
modelled as explicit state passing.  Insignificant template whitespace of
the HTML fragments produced by the renderers is elided.
-/

/-- Model of a JavaScript value: `null`, `undefined`, booleans, (integer)
numbers, strings, arrays and plain objects (ordered field lists). -/
inductive JSVal where
  | null
  | undefined
  | bool (b : Bool)
  | num (n : Int)
  | str (s : String)
  | arr (elems : List JSVal)
  | obj (fields : List (String × JSVal))

/-- JavaScript truthiness of a value (`if (v)` / `!v` semantics). -/
def JSVal.truthy : JSVal → Bool
  | .null => false
  | .undefined => false
  | .bool b => b
  | .num n => n != 0
  | .str s => s != ""
  | .arr _ => true
  | .obj _ => true

/-- JavaScript `typeof v`; note that `typeof null` is the string "object". -/
def JSVal.typeof : JSVal → String
  | .null => "object"
  | .undefined => "undefined"
  | .bool _ => "boolean"
  | .num _ => "number"
  | .str _ => "string"
  | .arr _ => "object"
  | .obj _ => "object"

/-- JavaScript `Array.isArray(v)`. -/
def JSVal.isArray : JSVal → Bool
  | .arr _ => true
  | _ => false

/-- The element list of an array value (empty for non-arrays). -/
def JSVal.elems : JSVal → List JSVal
  | .arr xs => xs
  | _ => []

/-- Property access `v[k]` on an object; absent keys read as `undefined`,
as does property access on non-objects. -/
def JSVal.get : JSVal → String → JSVal
  | .obj fields, k =>
      match fields.find? (fun p => p.fst == k) with
      | some p => p.snd
      | none => .undefined
  | _, _ => .undefined

mutual

/-- String conversion used by template interpolation: the value of a
JavaScript template placeholder holding `v`. -/
def JSVal.toDisplayString : JSVal → String
  | .null => "null"
  | .undefined => "undefined"
  | .bool b => if b then "true" else "false"
  | .num n => toString n
  | .str s => s
  | .arr xs => jsArrayToString xs
  | .obj _ => "[object Object]"

/-- JavaScript `Array.prototype.toString`: comma-joined elements, with
`null` and `undefined` elements rendered as the empty string. -/
def jsArrayToString : List JSVal → String
  | [] => ""
  | [v] => jsArrayElemString v
  | v :: vs => jsArrayElemString v ++ "," ++ jsArrayToString vs

/-- A single element inside `Array.prototype.toString`. -/
def jsArrayElemString : JSVal → String
  | .null => ""
  | .undefined => ""
  | v => JSVal.toDisplayString v

end

/-- Interpolation with a string fallback: the value of a placeholder of the
form `v || fallback` where the fallback is a string literal. -/
def jsOrString (v : JSVal) (fallback : String) : String :=
  if v.truthy then v.toDisplayString else fallback

namespace AnalysisManager

/-- Character class of the JavaScript regex word class used in the label
transformation of `renderObjectAsCards`. -/
def jsWordChar (c : Char) : Bool :=
  c.isAlpha || c.isDigit || c = '_'

/-- The label transformation of `renderObjectAsCards`:
`key.replace(/_/g, ' ').replace(/\b\w/g, l => l.toUpperCase())`,
i.e. underscores become spaces and every word-initial character is
upper-cased. -/
def labelOfKey (key : String) : String :=
  let spaced := key.replace "_" " "
  (spaced.data.foldl
    (fun (acc : String × Bool) c =>
      (acc.1.push (if !acc.2 && jsWordChar c then c.toUpper else c), jsWordChar c))
    ("", false)).1

/-- One `info-card` fragment produced by `renderListAsCards`. -/
def infoCard (item : JSVal) : String :=
  "<div class=\"info-card\"><span>" ++ item.toDisplayString ++ "</span></div>"

/-- `AnalysisManager.renderListAsCards` (analysis.js lines 864-872). -/
def renderListAsCards (list : JSVal) : String :=
  if !list.truthy || !list.isArray then "<p>Não informado</p>"
  else String.join (list.elems.map infoCard)

/-- `Object.entries(v)`: field list for objects, index-value pairs for
arrays, empty for primitives. -/
def JSVal.entries : JSVal → List (String × JSVal)
  | .obj fields => fields
  | .arr xs => (xs.enum.map fun p => (toString p.1, p.2))
  | _ => []

/-- One entry of `renderObjectAsCards`: array-valued fields become lists,
other fields become labelled spans. -/
def renderObjectEntry (key : String) (value : JSVal) : String :=
  let label := labelOfKey key
  if value.isArray then
    "<div class=\"info-card\"><strong>" ++ label ++ ":</strong><ul>"
      ++ String.join (value.elems.map fun item => "<li>" ++ item.toDisplayString ++ "</li>")
      ++ "</ul></div>"
  else
    "<div class=\"info-card\"><strong>" ++ label ++ ":</strong><span>"
      ++ value.toDisplayString ++ "</span></div>"

/-- `AnalysisManager.renderObjectAsCards` (analysis.js lines 874-896). -/
def renderObjectAsCards (obj : JSVal) : String :=
  if !obj.truthy || obj.typeof != "object" then "<p>Não informado</p>"
  else String.join ((JSVal.entries obj).map fun p => renderObjectEntry p.1 p.2)

/-- One `positioning-card` block of `displayPositioningSection`. -/
def positioningCard (title body : String) : String :=
  "<div class=\"positioning-card\"><h4>" ++ title ++ "</h4>" ++ body ++ "</div>"

/-- Outcome of a display method: `noWrite` models an early return (falsy
argument or missing container, nothing assigned to `innerHTML`), `thrown`
a TypeError raised while the template evaluates (the exception propagates
and nothing is written), and `written h` the HTML assigned to the
container. -/
inductive RenderOutcome where
  | noWrite
  | thrown
  | written (html : String)

/-- The body of the third positioning card: the ternary
`diferenciais_competitivos ? <ul>...map...</ul> : fallback`.  A truthy
value is fed to `.map`, which throws a TypeError unless the value is an
array (`none`); a falsy value yields the fallback paragraph. -/
def differentialsBody (v : JSVal) : Option String :=
  if v.truthy then
    if v.isArray then
      some ("<ul>"
        ++ String.join (v.elems.map fun d => "<li>" ++ d.toDisplayString ++ "</li>")
        ++ "</ul>")
    else none
  else some "<p>Não informado</p>"

/-- `AnalysisManager.displayPositioningSection` (analysis.js lines 562-603). -/
def displayPositioningSection (positioning : JSVal) : RenderOutcome :=
  if !positioning.truthy then .noWrite
  else
    match differentialsBody (positioning.get "diferenciais_competitivos") with
    | none => .thrown
    | some diffBody => .written
      ("<div class=\"result-section\"><h3 class=\"section-title\">🎯 Estratégia de Posicionamento</h3><div class=\"positioning-content\">"
        ++ positioningCard "💎 Proposta de Valor Única"
            ("<p>" ++ jsOrString (positioning.get "proposta_valor_unica") "Não informado" ++ "</p>")
        ++ positioningCard "📍 Posicionamento no Mercado"
            ("<p>" ++ jsOrString (positioning.get "posicionamento_mercado") "Não informado" ++ "</p>")
        ++ positioningCard "🏆 Diferenciais Competitivos" diffBody
        ++ positioningCard "📢 Mensagem Central"
            ("<p>" ++ jsOrString (positioning.get "mensagem_central") "Não informado" ++ "</p>")
        ++ positioningCard "🎵 Tom de Comunicação"
            ("<p>" ++ jsOrString (positioning.get "tom_comunicacao") "Não informado" ++ "</p>")
        ++ "</div></div>")

/-- JavaScript `Array.prototype.join(sep)`: elements stringified, with
`null` and `undefined` rendered as the empty string. -/
def jsArrayJoin (v : JSVal) (sep : String) : String :=
  String.intercalate sep (v.elems.map jsArrayElemString)

/-- One phase card of `displayPrePitchSection` (analysis.js lines
483-490): `fase.fase`, `fase.objetivo` and `fase.tempo` are interpolated
with no fallback, so an absent field renders as the string "undefined";
the `tecnicas` block calls `.join`, which throws on a truthy non-array
(`none`). -/
def prePitchPhaseCard (fase : JSVal) : Option String :=
  if (fase.get "tecnicas").truthy && !(fase.get "tecnicas").isArray then none
  else some
    ("<div class=\"phase-card\"><h5>" ++ (fase.get "fase").toDisplayString ++ "</h5>"
      ++ "<p><strong>Objetivo:</strong> " ++ (fase.get "objetivo").toDisplayString ++ "</p>"
      ++ "<p><strong>Tempo:</strong> " ++ (fase.get "tempo").toDisplayString ++ "</p>"
      ++ (if (fase.get "tecnicas").truthy then
            "<p><strong>Técnicas:</strong> " ++ jsArrayJoin (fase.get "tecnicas") ", " ++ "</p>"
          else "")
      ++ "</div>")

/-- `AnalysisManager.displayPrePitchSection` (analysis.js lines 462-505):
after the falsy guard, the emotional-orchestration block is emitted when
`orquestracao_emocional` and its `sequencia_psicologica` are truthy, with
one phase card per element; `forEach` over a truthy non-array (and `.join`
inside a card) throws. -/
def displayPrePitchSection (prePitch : JSVal) : RenderOutcome :=
  if !prePitch.truthy then .noWrite
  else
    let header := "<div class=\"result-section\"><h3 class=\"section-title\">🎯 Pré-Pitch Invisível</h3><div class=\"pre-pitch-content\">"
    let orq := prePitch.get "orquestracao_emocional"
    let seq := orq.get "sequencia_psicologica"
    if orq.truthy && seq.truthy then
      if !seq.isArray then .thrown
      else
        match seq.elems.mapM prePitchPhaseCard with
        | none => .thrown
        | some cards => .written
          (header
            ++ "<div class=\"emotional-orchestration\"><h4>🎼 Orquestração Emocional</h4><div class=\"sequence-timeline\">"
            ++ String.join cards
            ++ "</div></div>"
            ++ "</div></div>")
    else .written (header ++ "</div></div>")

end AnalysisManager

/-- Truthiness of a possibly-null string slot (`!x` on a value that is
either `null`, modelled `none`, or a string). -/
def optTruthy : Option String → Bool
  | none => false
  | some s => s != ""

namespace AnalysisManager

/-- The mutable state of `AnalysisManager` relevant to `startAnalysis`:
the re-entrancy guard. -/
structure SyncState where
  isAnalyzing : Bool

/-- Observable effects of one `AnalysisManager.startAnalysis` run. -/
inductive SyncAction where
  | showError (msg : String)
  | showProgressArea
  | postAnalyze
  | displayResults

/-- `AnalysisManager.startAnalysis` (analysis.js lines 21-74), as a function
from the current state, the form-validation result and the outcome of the
`POST /api/analyze` round trip (`postOk = true`: response ok and parsed;
`false`: the fetch rejected or `response.ok` was false, so the `catch`
branch runs with message `errMsg`) to the final state and the list of
effects, in order.  The `finally` block resets `isAnalyzing` on both
outcomes. -/
def startAnalysis (s : SyncState) (formValid : Bool) (postOk : Bool)
    (errMsg : String) : SyncState × List SyncAction :=
  if s.isAnalyzing then (s, [])
  else if !formValid then
    (s, [.showError "Por favor, preencha pelo menos o segmento de mercado."])
  else
    let actions := [SyncAction.showProgressArea, SyncAction.postAnalyze]
      ++ (if postOk then [SyncAction.displayResults]
          else [SyncAction.showError ("Erro na análise: " ++ errMsg)])
    ({ s with isAnalyzing := false }, actions)

/-- The `localStorage` key used by both managers for the session id. -/
def sessionStorageKey : String := "arqv30_session_id"

/-- `AnalysisManager.getSessionId` (analysis.js lines 97-104).  The first
component of the result is the returned identifier, the second the value
stored under `arqv30_session_id` afterwards; `store` is the value found
there (`none` models a `null` `getItem` result) and `fresh` models the
`Date.now() + '_' + Math.random().toString(36).substr(2, 9)` suffix. -/
def getSessionId (store : Option String) (fresh : String) :
    String × Option String :=
  if optTruthy store then (store.getD "", store)
  else
    let sessionId := "session_" ++ fresh
    (sessionId, some sessionId)

end AnalysisManager

namespace AsyncAnalysisManager

/-- A task-status document returned by `GET /api/task_status/{id}`; only the
`state` field drives the polling loop. -/
structure TaskStatus where
  state : String

/-- A status is terminal when the monitoring callback stops the interval:
state `SUCCESS` or state `FAILURE`. -/
def isTerminalState (s : TaskStatus) : Bool :=
  s.state == "SUCCESS" || s.state == "FAILURE"

/-- The polling period of `startStatusMonitoring`: the second argument of
`setInterval` (analysis.js line 1148), in milliseconds. -/
def statusCheckIntervalMs : Nat := 2000

/-- The statuses actually observed by the monitoring loop of
`startStatusMonitoring` (analysis.js lines 1127-1156), given the sequence
of statuses the server returns on the successive polls: each tick issues
one `GET /api/task_status/{id}` and observes the next status; on a
`SUCCESS` or `FAILURE` state it calls `stopStatusMonitoring`, which clears
the interval, so no later status is ever observed. -/
def observedPolls : List TaskStatus → List TaskStatus
  | [] => []
  | s :: rest => if isTerminalState s then [s] else s :: observedPolls rest

/-- `startStatusMonitoring` guards on `this.currentTaskId` before installing
the interval: with no task id no poll is ever issued. -/
def startStatusMonitoring (currentTaskId : Option String)
    (statuses : List TaskStatus) : List TaskStatus :=
  match currentTaskId with
  | none => []
  | some _ => observedPolls statuses

/-- The URL polled for a task, `/api/task_status/${this.currentTaskId}`. -/
def taskStatusURL (taskId : String) : String :=
  "/api/task_status/" ++ taskId

/-- The status-poll requests issued after `startAsyncAnalysis` received
`task_id` from a successful `POST /api/analyze_async` (analysis.js lines
1041-1081 set `currentTaskId` and call `startStatusMonitoring`): one GET to
the task-status URL per observed status. -/
def asyncAnalysisPollRequests (taskId : String)
    (statuses : List TaskStatus) : List String :=
  (startStatusMonitoring (some taskId) statuses).map fun _ => taskStatusURL taskId

/-- `AsyncAnalysisManager.getSessionId` (analysis.js lines 1104-1111),
textually identical to the `AnalysisManager` version. -/
def getSessionId (store : Option String) (fresh : String) :
    String × Option String :=
  if optTruthy store then (store.getD "", store)
  else
    let sessionId := "session_" ++ fresh
    (sessionId, some sessionId)

/-- Observable effects of one `AsyncAnalysisManager.downloadReport` run. -/
inductive ReportAction where
  | showError (msg : String)
  | downloadTXTFile (result : JSVal)
  | downloadPDFFile (result : JSVal)
  | downloadJSONFile (result : JSVal)

/-- The export formats offered by the dashboard header produced by
`generateInteractiveDashboard` (analysis.js lines 1232-1293): the three
`onclick` handlers `asyncAnalysisManager.downloadReport('txt' | 'pdf' |
'json')` of its action buttons, in template order. -/
def dashboardExportFormats : List String := ["txt", "pdf", "json"]

/-- `AsyncAnalysisManager.downloadReport` (analysis.js lines 1389-1410):
with a falsy `currentTaskId` it shows an error and returns; otherwise it
dispatches on the format over the result stored by the dashboard
(`localStorage` key `last_analysis_result`). -/
def downloadReport (currentTaskId : Option String) (storedResult : JSVal)
    (format : String) : List ReportAction :=
  if !optTruthy currentTaskId then
    [.showError "Nenhuma análise disponível para download"]
  else if format == "txt" then [.downloadTXTFile storedResult]
  else if format == "pdf" then [.downloadPDFFile storedResult]
  else if format == "json" then [.downloadJSONFile storedResult]
  else []

end AsyncAnalysisManager

/-- JavaScript `String.prototype.includes`: `pat` occurs contiguously in
`s`. -/
def strIncludes (s pat : String) : Bool :=
  decide (pat.data <:+: s.data)

/-- JavaScript `String.prototype.startsWith`. -/
def strStartsWith (s pat : String) : Bool :=
  decide (pat.data <+: s.data)

namespace ServiceWorker

/-- The `STATIC_FILES` list of the service worker (sw.js lines 9-19). -/
def STATIC_FILES : List String :=
  ["/",
   "/static/css/main.css",
   "/static/css/components.css",
   "/static/js/main.js",
   "/static/js/analysis.js",
   "/static/js/upload.js",
   "/static/images/logo.png",
   "https://fonts.googleapis.com/css2?family=Inter:wght@300;400;500;600;700&display=swap",
   "https://cdnjs.cloudflare.com/ajax/libs/font-awesome/6.4.0/css/all.min.css"]

/-- The `API_CACHE_PATTERNS` list of the service worker (sw.js lines
22-26). -/
def API_CACHE_PATTERNS : List String :=
  ["/api/health", "/api/app_status", "/api/stats"]

/-- `isStaticFile` (sw.js lines 193-203). -/
def isStaticFile (url : String) : Bool :=
  STATIC_FILES.any (fun file => strIncludes url file) ||
  strIncludes url "/static/" ||
  strIncludes url ".css" ||
  strIncludes url ".js" ||
  strIncludes url ".png" ||
  strIncludes url ".jpg" ||
  strIncludes url ".ico" ||
  strIncludes url "fonts.googleapis.com" ||
  strIncludes url "cdnjs.cloudflare.com"

/-- `isAPIRequest` (sw.js lines 205-207). -/
def isAPIRequest (url : String) : Bool :=
  API_CACHE_PATTERNS.any fun pattern => strIncludes url pattern

/-- `isAnalysisRequest` (sw.js lines 209-213). -/
def isAnalysisRequest (url : String) : Bool :=
  strIncludes url "/api/analyze" ||
  strIncludes url "/api/upload_attachment" ||
  strIncludes url "/generate-pdf"

/-- The strategy the `fetch` handler hands the request to. -/
inductive FetchStrategy where
  | browserDefault
  | cacheFirst
  | networkFirstWithCache
  | networkOnly
  | staleWhileRevalidate

/-- The dispatch of the service worker `fetch` event listener (sw.js lines
74-102): non-GET and non-http requests are left to the browser; otherwise
the first matching classifier, tested in source order, picks the
strategy. -/
def fetchHandler (method : String) (url : String) : FetchStrategy :=
  if method != "GET" then .browserDefault
  else if !(strStartsWith url "http") then .browserDefault
  else if isStaticFile url then .cacheFirst
  else if isAPIRequest url then .networkFirstWithCache
  else if isAnalysisRequest url then .networkOnly
  else .staleWhileRevalidate

/-- A response in the cache model; only `ok` matters to the strategies. -/
structure SWResponse where
  ok : Bool

/-- How a request was answered by a strategy, and whether the response was
stored into a cache on the way. -/
inductive CacheOutcome where
  | fromCache (r : SWResponse)
  | fromNetworkStored (r : SWResponse)
  | fromNetworkNotStored (r : SWResponse)
  | offline503

/-- The `cacheFirst` strategy (sw.js lines 105-127): a cache hit is
returned without contacting the network; on a miss the network is fetched
and an `ok` response is put into the static cache; a failed fetch yields
the offline 503 response. -/
def cacheFirst (cached : Option SWResponse) (network : Option SWResponse) :
    CacheOutcome :=
  match cached with
  | some r => .fromCache r
  | none =>
    match network with
    | some r => if r.ok then .fromNetworkStored r else .fromNetworkNotStored r
    | none => .offline503

/-- The `networkOnly` strategy (sw.js lines 159-172): always fetches, never
touches a cache. -/
def networkOnly (network : Option SWResponse) : CacheOutcome :=
  match network with
  | some r => .fromNetworkNotStored r
  | none => .offline503

end ServiceWorker

namespace FileUploadManager

/-- The fields of a browser `File` object the upload manager reads. -/
structure JSFile where
  name : String
  size : Nat
  type : String

/-- `this.maxFileSize` (upload.js line 5). -/
def maxFileSize : Nat := 16 * 1024 * 1024

/-- `this.allowedTypes` (upload.js lines 6-15). -/
def allowedTypes : List String :=
  ["application/pdf",
   "application/vnd.openxmlformats-officedocument.wordprocessingml.document",
   "application/msword",
   "application/vnd.openxmlformats-officedocument.spreadsheetml.sheet",
   "application/vnd.ms-excel",
   "text/csv",
   "text/plain",
   "application/json"]

/-- `this.allowedExtensions` (upload.js lines 17-19). -/
def allowedExtensions : List String :=
  [".pdf", ".doc", ".docx", ".xlsx", ".xls", ".csv", ".txt", ".json"]

/-- The extension computed by `validateFile`:
`'.' + file.name.split('.').pop().toLowerCase()` (for a dotless name,
`split('.').pop()` is the whole name). -/
def fileExtension (name : String) : String :=
  "." ++ ((name.splitOn ".").getLastD name).toLower

/-- Result of `validateFile`: the JS object `{valid: true}` or
`{valid: false, message}`. -/
inductive ValidationResult where
  | ok
  | invalid (message : String)

/-- `FileUploadManager.validateFile` (upload.js lines 100-122). -/
def validateFile (file : JSFile) : ValidationResult :=
  if file.size > maxFileSize then
    .invalid ("Arquivo \"" ++ file.name ++ "\" é muito grande. Tamanho máximo: 16MB.")
  else
    let isValidType := allowedTypes.contains file.type
      || allowedExtensions.contains (fileExtension file.name)
    if !isValidType then
      .invalid ("Tipo de arquivo \"" ++ file.name
        ++ "\" não suportado. Tipos aceitos: PDF, DOC, DOCX, XLSX, XLS, CSV, TXT, JSON.")
    else .ok

/-- Observable effects of one `processFile` run. -/
inductive UploadAction where
  | showError (msg : String)
  | addFileToUI
  | uploadRequest (endpoint : String)

/-- `FileUploadManager.processFile` (upload.js lines 85-98): an invalid
file produces an error message and nothing else; a valid file is shown in
the UI and then uploaded by `uploadFile`, whose XHR posts to
`/api/upload_attachment` (upload.js line 214). -/
def processFile (file : JSFile) : List UploadAction :=
  match validateFile file with
  | .invalid message => [.showError message]
  | .ok => [.addFileToUI, .uploadRequest "/api/upload_attachment"]

end FileUploadManager

/-- An HTTP request issued by the front-end scripts. -/
structure HttpRequest where
  method : String
  url : String
deriving DecidableEq

/-- Every request the front-end scripts can issue, one entry per `fetch` or
`XMLHttpRequest` call site, with the dynamic URL parts as parameters:
`POST /api/analyze` (AnalysisManager.startAnalysis, analysis.js 45),
`POST /generate-pdf` (AnalysisManager.downloadPdf, 946),
`POST /api/analyze_async` (AsyncAnalysisManager.startAsyncAnalysis, 1053),
`GET /api/task_status/{taskId}` (startStatusMonitoring, 1132),
`POST /api/generate_pdf` (AsyncAnalysisManager.downloadPDF, 1426),
`GET /api/dashboard` (loadDashboard, 1545),
`GET /api/analysis/{analysisId}/download?format={fmt}` (downloadAnalysis, 1636),
`POST /api/validate_apis` (validateAPIs, 1665),
`GET /api/app_status` (ARQVApp.checkSystemStatus, main.js 174),
`POST /api/upload_attachment` (FileUploadManager.uploadFile, upload.js 214). -/
def frontendRequests (taskId analysisId fmt : String) : List HttpRequest :=
  [⟨"POST", "/api/analyze"⟩,
   ⟨"POST", "/generate-pdf"⟩,
   ⟨"POST", "/api/analyze_async"⟩,
   ⟨"GET", "/api/task_status/" ++ taskId⟩,
   ⟨"POST", "/api/generate_pdf"⟩,
   ⟨"GET", "/api/dashboard"⟩,
   ⟨"GET", "/api/analysis/" ++ analysisId ++ "/download?format=" ++ fmt⟩,
   ⟨"POST", "/api/validate_apis"⟩,
   ⟨"GET", "/api/app_status"⟩,
   ⟨"POST", "/api/upload_attachment"⟩]

/-- The request of `AsyncAnalysisManager.downloadPDF` (analysis.js lines
1425-1447), the async dashboard PDF export. -/
def downloadPDFRequest : HttpRequest := ⟨"POST", "/api/generate_pdf"⟩

/-- Modelled from the spec (section 6): membership in the list of seven
endpoints the spec says the front end consumes — `POST /api/analyze`,
`POST /api/analyze_async`, `GET /api/task_status/:id`,
`POST /api/upload_attachment`, `GET /api/dashboard`, `POST /generate-pdf`,
`GET /api/app_status`. -/
def ClaimedEndpoint (r : HttpRequest) : Prop :=
  (r.method = "POST" ∧ r.url = "/api/analyze") ∨
  (r.method = "POST" ∧ r.url = "/api/analyze_async") ∨
  (r.method = "GET" ∧ ∃ id, r.url = "/api/task_status/" ++ id) ∨
  (r.method = "POST" ∧ r.url = "/api/upload_attachment") ∨
  (r.method = "GET" ∧ r.url = "/api/dashboard") ∨
  (r.method = "POST" ∧ r.url = "/generate-pdf") ∨
  (r.method = "GET" ∧ r.url = "/api/app_status")

namespace Schema

/-- The tables created by the SQL migration, in creation order. -/
def tables : List String := ["analyses", "sessions", "attachments"]

/-- Column names of the `analyses` table. -/
def analysesColumns : List String :=
  ["id", "nicho", "produto", "descricao", "preco", "publico", "concorrentes",
   "dados_adicionais", "objetivo_receita", "orcamento_marketing",
   "prazo_lancamento", "avatar_data", "positioning_data", "competition_data",
   "marketing_data", "metrics_data", "funnel_data", "market_intelligence",
   "action_plan", "comprehensive_analysis", "status", "created_at",
   "updated_at"]

/-- Column names of the `sessions` table. -/
def sessionsColumns : List String :=
  ["id", "session_id", "user_agent", "ip_address", "metadata", "created_at",
   "last_activity"]

/-- Column names of the `attachments` table. -/
def attachmentsColumns : List String :=
  ["id", "session_id", "filename", "original_filename", "file_size",
   "mime_type", "content_type", "extracted_content", "metadata",
   "created_at"]

/-- The `session_id` column of `sessions` is declared
`VARCHAR(255) UNIQUE NOT NULL`. -/
structure ColumnConstraints where
  isUnique : Bool
  isNotNull : Bool

/-- Constraints on `sessions.session_id` from the migration. -/
def sessionsSessionIdConstraints : ColumnConstraints :=
  ⟨true, true⟩

/-- The single column the plpgsql trigger function
`update_updated_at_column` assigns on `NEW` (`NEW.updated_at = NOW()`). -/
def updateUpdatedAtColumnAssigns : String := "updated_at"

/-- A before-update trigger of the migration: its name, its table, and the
column its `EXECUTE`d function assigns. -/
structure TriggerDef where
  name : String
  onTable : String
  functionAssigns : String

/-- `CREATE TRIGGER update_analyses_updated_at BEFORE UPDATE ON analyses
... EXECUTE FUNCTION update_updated_at_column()`. -/
def update_analyses_updated_at : TriggerDef :=
  ⟨"update_analyses_updated_at", "analyses", updateUpdatedAtColumnAssigns⟩

/-- `CREATE TRIGGER update_sessions_last_activity BEFORE UPDATE ON sessions
... EXECUTE FUNCTION update_updated_at_column()` — the same function, which
assigns `updated_at`, not `last_activity`. -/
def update_sessions_last_activity : TriggerDef :=
  ⟨"update_sessions_last_activity", "sessions", updateUpdatedAtColumnAssigns⟩

/-- Overwrite one column of a row (a row is an assignment of values to the
column names of its table). -/
def setColumn (row : List (String × String)) (col val : String) :
    List (String × String) :=
  row.map fun p => if p.1 = col then (col, val) else p

/-- Semantics of firing a before-update trigger whose function assigns
column `t.functionAssigns` on `NEW`: if the table has that column the row
is updated, otherwise plpgsql raises `record "new" has no field ...` at
run time, modelled by `none` (the UPDATE fails and no column of the row
changes). -/
def fireTrigger (t : TriggerDef) (tableColumns : List String)
    (row : List (String × String)) (now : String) :
    Option (List (String × String)) :=
  if tableColumns.contains t.functionAssigns then
    some (setColumn row t.functionAssigns now)
  else none

end Schema

namespace ARQVApp

/-- The unit array of `ARQVApp.formatFileSize` (main.js line 474). -/
def sizes : List String := ["Bytes", "KB", "MB", "GB"]

/-- The unit index `Math.floor(Math.log(bytes) / Math.log(1024))` of
`formatFileSize`, under exact real arithmetic: for a positive integer
`bytes` this floor equals the base-1024 integer logarithm. -/
def unitIndex (bytes : Nat) : Nat := Nat.log 1024 bytes

/-- Exact-arithmetic model of
`parseFloat((bytes / Math.pow(k, i)).toFixed(2))` rendered into the result
string: the quotient by `1024 ^ unitIndex bytes` rounded half-up to two
decimals, with trailing zeros trimmed as `parseFloat` does. -/
def numPart (bytes : Nat) : String :=
  let denom := 1024 ^ unitIndex bytes
  let hundredths := (bytes * 100 + denom / 2) / denom
  let intPart := hundredths / 100
  let frac := hundredths % 100
  if frac = 0 then toString intPart
  else if frac % 10 = 0 then toString intPart ++ "." ++ toString (frac / 10)
  else toString intPart ++ "." ++
    (if frac < 10 then "0" ++ toString frac else toString frac)

/-- `ARQVApp.formatFileSize` (main.js lines 471-477).  Indexing past the
end of `sizes` renders the JS `undefined`, as the template would. -/
def formatFileSize (bytes : Nat) : String :=
  if bytes = 0 then "0 Bytes"
  else numPart bytes ++ " " ++ sizes.getD (unitIndex bytes) "undefined"

end ARQVApp

namespace FileUploadManager

/-- The unit array of `FileUploadManager.formatFileSize` (upload.js line
294), which also covers terabytes. -/
def sizes : List String := ["Bytes", "KB", "MB", "GB", "TB"]

/-- `FileUploadManager.formatFileSize` (upload.js lines 290-298); same
algorithm as the `ARQVApp` variant, over the five-element unit array. -/
def formatFileSize (bytes : Nat) : String :=
  if bytes = 0 then "0 Bytes"
  else ARQVApp.numPart bytes ++ " "
    ++ sizes.getD (ARQVApp.unitIndex bytes) "undefined"

end FileUploadManager

namespace AsyncAnalysisManager

/-- Helper: the monitoring loop observes the leading non-terminal statuses
and the first terminal one, and nothing after it. -/
theorem observedPolls_stops_at_first_terminal (s : TaskStatus)
    (rest : List TaskStatus) (hs : isTerminalState s = true) :
    ∀ pre : List TaskStatus, (∀ t ∈ pre, isTerminalState t = false) →
      observedPolls (pre ++ s :: rest) = pre ++ [s] := by
  intro pre
  induction pre with
  | nil =>
    intro _
    simp [observedPolls, hs]
  | cons t ts ih =>
    intro hpre
    have ht : isTerminalState t = false := hpre t (by simp)
    have ih2 := ih fun x hx => hpre x (by simp [hx])
    simp [observedPolls, ht, ih2]

/-- Helper: while no terminal status arrives, every status is polled. -/
theorem observedPolls_all_nonterminal :
    ∀ l : List TaskStatus, (∀ t ∈ l, isTerminalState t = false) →
      observedPolls l = l := by
  intro l
  induction l with
  | nil => intro _; rfl
  | cons t ts ih =>
    intro hl
    have ht : isTerminalState t = false := hl t (by simp)
    simp [observedPolls, ht, ih fun x hx => hl x (by simp [hx])]

end AsyncAnalysisManager

/-- C1: the async manager polls `GET /api/task_status/{task_id}` on a fixed
2000 ms interval with the task id returned by `POST /api/analyze_async`,
keeps polling while statuses are non-terminal, and stops exactly at the
first observed status whose state is SUCCESS or FAILURE: nothing after it
is ever polled. -/
theorem c1_polling_protocol :
    AsyncAnalysisManager.statusCheckIntervalMs = 2000 ∧
    (∀ (tid : String) (statuses : List AsyncAnalysisManager.TaskStatus),
      ∀ u ∈ AsyncAnalysisManager.asyncAnalysisPollRequests tid statuses,
        u = AsyncAnalysisManager.taskStatusURL tid) ∧
    (∀ (pre : List AsyncAnalysisManager.TaskStatus)
        (s : AsyncAnalysisManager.TaskStatus)
        (rest : List AsyncAnalysisManager.TaskStatus),
      (∀ t ∈ pre, AsyncAnalysisManager.isTerminalState t = false) →
      AsyncAnalysisManager.isTerminalState s = true →
      AsyncAnalysisManager.observedPolls (pre ++ s :: rest) = pre ++ [s]) ∧
    (∀ statuses : List AsyncAnalysisManager.TaskStatus,
      (∀ t ∈ statuses, AsyncAnalysisManager.isTerminalState t = false) →
      AsyncAnalysisManager.observedPolls statuses = statuses) ∧
    (∀ statuses : List AsyncAnalysisManager.TaskStatus,
      AsyncAnalysisManager.startStatusMonitoring none statuses = []) := by
  refine ⟨rfl, ?_, ?_, ?_, fun _ => rfl⟩
  · intro tid statuses u hu
    simp only [AsyncAnalysisManager.asyncAnalysisPollRequests,
      AsyncAnalysisManager.startStatusMonitoring, List.mem_map] at hu
    obtain ⟨_, _, rfl⟩ := hu
    rfl
  · intro pre s rest hpre hs
    exact AsyncAnalysisManager.observedPolls_stops_at_first_terminal s rest hs pre hpre
  · exact AsyncAnalysisManager.observedPolls_all_nonterminal

/-- Witness for `c1_polling_protocol`: a PROGRESS status followed by a
SUCCESS terminal status and a later status that is never observed. -/
theorem c1_polling_protocol_witness :
    AsyncAnalysisManager.observedPolls
        [⟨"PROGRESS"⟩, ⟨"SUCCESS"⟩, ⟨"PROGRESS"⟩] =
      [⟨"PROGRESS"⟩, ⟨"SUCCESS"⟩] ∧
    AsyncAnalysisManager.asyncAnalysisPollRequests "t1" [⟨"PROGRESS"⟩] =
      ["/api/task_status/t1"] :=
  ⟨c1_polling_protocol.2.2.1 [⟨"PROGRESS"⟩] ⟨"SUCCESS"⟩ [⟨"PROGRESS"⟩]
      (by decide) (by decide),
   by
    have h := c1_polling_protocol.2.1 "t1" [⟨"PROGRESS"⟩]
    simp only [AsyncAnalysisManager.asyncAnalysisPollRequests,
      AsyncAnalysisManager.startStatusMonitoring,
      AsyncAnalysisManager.observedPolls] at h ⊢
    rfl⟩

set_option maxRecDepth 16384 in
/-- C2 counterexample: not every per-field renderer substitutes a fallback
for an absent field.  `displayPrePitchSection` interpolates `fase.fase`,
`fase.objetivo` and `fase.tempo` with no fallback, so for a pre-pitch
whose single psychological phase is the empty object — every field
absent — the written section reads "undefined" in each slot and contains
neither "Não informado" nor "N/A". -/
theorem c2_prepitch_undefined_counterexample :
    (JSVal.obj []).get "objetivo" = JSVal.undefined ∧
    ∃ h : String,
      AnalysisManager.displayPrePitchSection
          (JSVal.obj [("orquestracao_emocional",
            JSVal.obj [("sequencia_psicologica", JSVal.arr [JSVal.obj []])])]) =
        .written h ∧
      strIncludes h "<p><strong>Objetivo:</strong> undefined</p>" = true ∧
      strIncludes h "Não informado" = false ∧
      strIncludes h "N/A" = false := by
  refine ⟨rfl,
    "<div class=\"result-section\"><h3 class=\"section-title\">🎯 Pré-Pitch Invisível</h3><div class=\"pre-pitch-content\"><div class=\"emotional-orchestration\"><h4>🎼 Orquestração Emocional</h4><div class=\"sequence-timeline\"><div class=\"phase-card\"><h5>undefined</h5><p><strong>Objetivo:</strong> undefined</p><p><strong>Tempo:</strong> undefined</p></div></div></div></div></div>",
    ?_, ?_, ?_, ?_⟩
  · simp [AnalysisManager.displayPrePitchSection, AnalysisManager.prePitchPhaseCard,
      JSVal.get, JSVal.toDisplayString, JSVal.truthy, JSVal.isArray, JSVal.elems,
      List.find?, List.mapM, List.mapM.loop, AnalysisManager.jsArrayJoin]
    rfl
  · decide
  · decide
  · decide

/-- C2 (amended): `renderListAsCards` returns the fallback paragraph on
`null`, `undefined` or any non-array; `renderObjectAsCards` returns it on
`null` or any value whose `typeof` is not "object"; and
`displayPositioningSection` renders the fallback text in every card whose
source field is absent (a present but non-array `diferenciais_competitivos`
instead throws in `.map` and nothing is written).  Not every per-field
renderer falls back: `displayPrePitchSection` renders absent phase fields
as the string "undefined" (see the counterexample). -/
theorem c2_renderer_fallbacks :
    (∀ v : JSVal, v = JSVal.null ∨ v = JSVal.undefined ∨ v.isArray = false →
      AnalysisManager.renderListAsCards v = "<p>Não informado</p>") ∧
    (∀ v : JSVal, v = JSVal.null ∨ v.typeof ≠ "object" →
      AnalysisManager.renderObjectAsCards v = "<p>Não informado</p>") ∧
    (∀ p : JSVal, p.truthy = true →
      p.get "proposta_valor_unica" = JSVal.undefined →
      p.get "posicionamento_mercado" = JSVal.undefined →
      p.get "diferenciais_competitivos" = JSVal.undefined →
      p.get "mensagem_central" = JSVal.undefined →
      p.get "tom_comunicacao" = JSVal.undefined →
      AnalysisManager.displayPositioningSection p = .written
        ("<div class=\"result-section\"><h3 class=\"section-title\">🎯 Estratégia de Posicionamento</h3><div class=\"positioning-content\">"
          ++ AnalysisManager.positioningCard "💎 Proposta de Valor Única" "<p>Não informado</p>"
          ++ AnalysisManager.positioningCard "📍 Posicionamento no Mercado" "<p>Não informado</p>"
          ++ AnalysisManager.positioningCard "🏆 Diferenciais Competitivos" "<p>Não informado</p>"
          ++ AnalysisManager.positioningCard "📢 Mensagem Central" "<p>Não informado</p>"
          ++ AnalysisManager.positioningCard "🎵 Tom de Comunicação" "<p>Não informado</p>"
          ++ "</div></div>")) ∧
    (∀ p : JSVal, p.truthy = true →
      (p.get "diferenciais_competitivos").truthy = true →
      (p.get "diferenciais_competitivos").isArray = false →
      AnalysisManager.displayPositioningSection p = .thrown) := by
  refine ⟨?_, ?_, ?_, ?_⟩
  · intro v h
    rcases h with h | h | h
    · subst h; rfl
    · subst h; rfl
    · simp [AnalysisManager.renderListAsCards, h]
  · intro v h
    cases v with
    | null => rfl
    | undefined => rfl
    | bool b => cases b <;> rfl
    | num n => simp [AnalysisManager.renderObjectAsCards, JSVal.typeof]
    | str s => simp [AnalysisManager.renderObjectAsCards, JSVal.typeof]
    | arr xs =>
      rcases h with h | h
      · exact JSVal.noConfusion h
      · exact absurd rfl h
    | obj fields =>
      rcases h with h | h
      · exact JSVal.noConfusion h
      · exact absurd rfl h
  · intro p hp h1 h2 h3 h4 h5
    unfold AnalysisManager.displayPositioningSection
    rw [hp, h1, h2, h3, h4, h5]
    rfl
  · intro p hp ht hna
    have hd : AnalysisManager.differentialsBody
        (p.get "diferenciais_competitivos") = none := by
      simp [AnalysisManager.differentialsBody, ht, hna]
    simp [AnalysisManager.displayPositioningSection, hp, hd]

/-- Witness for `c2_renderer_fallbacks` at concrete inputs: the number 7 is
not an array and not of object type, the empty object is truthy with every
positioning field absent, and a string-valued `diferenciais_competitivos`
makes the section throw. -/
theorem c2_renderer_fallbacks_witness :
    AnalysisManager.renderListAsCards (JSVal.num 7) = "<p>Não informado</p>" ∧
    AnalysisManager.renderObjectAsCards (JSVal.num 7) = "<p>Não informado</p>" ∧
    AnalysisManager.displayPositioningSection (JSVal.obj []) = .written
      ("<div class=\"result-section\"><h3 class=\"section-title\">🎯 Estratégia de Posicionamento</h3><div class=\"positioning-content\">"
        ++ AnalysisManager.positioningCard "💎 Proposta de Valor Única" "<p>Não informado</p>"
        ++ AnalysisManager.positioningCard "📍 Posicionamento no Mercado" "<p>Não informado</p>"
        ++ AnalysisManager.positioningCard "🏆 Diferenciais Competitivos" "<p>Não informado</p>"
        ++ AnalysisManager.positioningCard "📢 Mensagem Central" "<p>Não informado</p>"
        ++ AnalysisManager.positioningCard "🎵 Tom de Comunicação" "<p>Não informado</p>"
        ++ "</div></div>") ∧
    AnalysisManager.displayPositioningSection
      (JSVal.obj [("diferenciais_competitivos", JSVal.str "low price")]) =
      .thrown :=
  ⟨c2_renderer_fallbacks.1 (JSVal.num 7) (Or.inr (Or.inr rfl)),
   c2_renderer_fallbacks.2.1 (JSVal.num 7) (Or.inr (by decide)),
   c2_renderer_fallbacks.2.2.1 (JSVal.obj []) rfl rfl rfl rfl rfl rfl,
   c2_renderer_fallbacks.2.2.2
     (JSVal.obj [("diferenciais_competitivos", JSVal.str "low price")])
     rfl rfl rfl⟩

/-- C4: `processFile` issues the upload request to
`/api/upload_attachment` exactly for files passing client-side validation
(size at most 16 MiB and MIME type allowed or extension allowed), and a
file failing validation yields exactly an error message and no upload. -/
theorem c4_upload_validation :
    (∀ f : FileUploadManager.JSFile,
      FileUploadManager.UploadAction.uploadRequest "/api/upload_attachment"
          ∈ FileUploadManager.processFile f ↔
        (f.size ≤ FileUploadManager.maxFileSize ∧
          (f.type ∈ FileUploadManager.allowedTypes ∨
            FileUploadManager.fileExtension f.name ∈ FileUploadManager.allowedExtensions))) ∧
    (∀ f : FileUploadManager.JSFile,
      (FileUploadManager.maxFileSize < f.size ∨
        (f.type ∉ FileUploadManager.allowedTypes ∧
          FileUploadManager.fileExtension f.name ∉ FileUploadManager.allowedExtensions)) →
      ∃ msg, FileUploadManager.processFile f = [.showError msg]) := by
  have hchar : ∀ f : FileUploadManager.JSFile,
      (f.size ≤ FileUploadManager.maxFileSize ∧
        (f.type ∈ FileUploadManager.allowedTypes ∨
          FileUploadManager.fileExtension f.name ∈ FileUploadManager.allowedExtensions)) →
      FileUploadManager.validateFile f = .ok := by
    intro f hf
    obtain ⟨h1, h2⟩ := hf
    have hs : ¬ f.size > FileUploadManager.maxFileSize := by omega
    have ht : (FileUploadManager.allowedTypes.contains f.type
        || FileUploadManager.allowedExtensions.contains
            (FileUploadManager.fileExtension f.name)) = true := by
      rcases h2 with h2 | h2 <;> simp [List.contains, List.elem_eq_mem, h2]
    unfold FileUploadManager.validateFile
    rw [if_neg hs, ht]
    rfl
  have hinv : ∀ f : FileUploadManager.JSFile,
      (FileUploadManager.maxFileSize < f.size ∨
        (f.type ∉ FileUploadManager.allowedTypes ∧
          FileUploadManager.fileExtension f.name ∉ FileUploadManager.allowedExtensions)) →
      ∃ msg, FileUploadManager.validateFile f = .invalid msg := by
    intro f h
    by_cases hs : f.size > FileUploadManager.maxFileSize
    · refine ⟨"Arquivo \"" ++ f.name ++ "\" é muito grande. Tamanho máximo: 16MB.", ?_⟩
      unfold FileUploadManager.validateFile
      rw [if_pos hs]
    · rcases h with h | h
      · omega
      · refine ⟨"Tipo de arquivo \"" ++ f.name
          ++ "\" não suportado. Tipos aceitos: PDF, DOC, DOCX, XLSX, XLS, CSV, TXT, JSON.", ?_⟩
        have ht : (FileUploadManager.allowedTypes.contains f.type
            || FileUploadManager.allowedExtensions.contains
                (FileUploadManager.fileExtension f.name)) = false := by
          simp [List.contains, List.elem_eq_mem, h.1, h.2]
        unfold FileUploadManager.validateFile
        rw [if_neg hs, ht]
        rfl
  constructor
  · intro f
    constructor
    · intro hmem
      by_contra hc
      push_neg at hc
      rcases Nat.lt_or_ge FileUploadManager.maxFileSize f.size with hlt | hge
      · rcases hinv f (Or.inl hlt) with ⟨msg, hv⟩
        simp [FileUploadManager.processFile, hv] at hmem
      · rcases hinv f (Or.inr (hc hge)) with ⟨msg, hv⟩
        simp [FileUploadManager.processFile, hv] at hmem
    · intro hvalid
      simp [FileUploadManager.processFile, hchar f hvalid]
  · intro f h
    rcases hinv f h with ⟨msg, hv⟩
    exact ⟨msg, by simp [FileUploadManager.processFile, hv]⟩

/-- Witness for `c4_upload_validation`: a 10-byte `notes.txt` of type
`text/plain` is uploaded, and an oversized `big.bin` yields an error. -/
theorem c4_upload_validation_witness :
    (FileUploadManager.UploadAction.uploadRequest "/api/upload_attachment"
      ∈ FileUploadManager.processFile ⟨"notes.txt", 10, "text/plain"⟩) ∧
    (∃ msg, FileUploadManager.processFile ⟨"big.bin", 20000000, "application/pdf"⟩
      = [.showError msg]) :=
  ⟨(c4_upload_validation.1 ⟨"notes.txt", 10, "text/plain"⟩).2
      ⟨by decide, Or.inl (by decide)⟩,
   c4_upload_validation.2 ⟨"big.bin", 20000000, "application/pdf"⟩
      (Or.inl (by decide))⟩

/-- C6: the interactive dashboard offers exactly the three export formats
txt, pdf and json, `downloadReport` dispatches each to the matching
download of the stored result, and with no analysis in the session
(`currentTaskId` null) it shows an error and downloads nothing, whatever
format is asked for. -/
theorem c6_export_formats :
    AsyncAnalysisManager.dashboardExportFormats = ["txt", "pdf", "json"] ∧
    (∀ (stored : JSVal) (fmt : String),
      AsyncAnalysisManager.downloadReport none stored fmt =
        [.showError "Nenhuma análise disponível para download"]) ∧
    (∀ (tid : Option String) (stored : JSVal), optTruthy tid = true →
      AsyncAnalysisManager.downloadReport tid stored "txt" = [.downloadTXTFile stored] ∧
      AsyncAnalysisManager.downloadReport tid stored "pdf" = [.downloadPDFFile stored] ∧
      AsyncAnalysisManager.downloadReport tid stored "json" = [.downloadJSONFile stored]) := by
  refine ⟨rfl, fun stored fmt => rfl, ?_⟩
  intro tid stored h
  refine ⟨?_, ?_, ?_⟩ <;> simp [AsyncAnalysisManager.downloadReport, h]

/-- Witness for `c6_export_formats` with a concrete task id and stored
result. -/
theorem c6_export_formats_witness :
    AsyncAnalysisManager.downloadReport (some "task1") (JSVal.obj []) "pdf" =
      [.downloadPDFFile (JSVal.obj [])] :=
  (c6_export_formats.2.2 (some "task1") (JSVal.obj []) (by decide)).2.1

/-- C8: `AnalysisManager.startAnalysis` is non-reentrant and restores its
guard: with `isAnalyzing` already set a call performs no effect at all (in
particular no `POST /api/analyze`) and leaves the state unchanged, and a
call that does run leaves `isAnalyzing` false whether the POST succeeded
or threw. -/
theorem c8_non_reentrant :
    (∀ (s : AnalysisManager.SyncState) (fv po : Bool) (em : String),
      s.isAnalyzing = true → AnalysisManager.startAnalysis s fv po em = (s, [])) ∧
    (∀ (s : AnalysisManager.SyncState) (fv po : Bool) (em : String),
      s.isAnalyzing = true →
      AnalysisManager.SyncAction.postAnalyze ∉ (AnalysisManager.startAnalysis s fv po em).2) ∧
    (∀ (s : AnalysisManager.SyncState) (fv po : Bool) (em : String),
      s.isAnalyzing = false →
      (AnalysisManager.startAnalysis s fv po em).1.isAnalyzing = false) := by
  refine ⟨?_, ?_, ?_⟩
  · intro s fv po em h
    simp [AnalysisManager.startAnalysis, h]
  · intro s fv po em h
    simp [AnalysisManager.startAnalysis, h]
  · intro s fv po em h
    cases fv <;> cases po <;> simp [AnalysisManager.startAnalysis, h]

/-- Witness for `c8_non_reentrant`: a concrete re-entrant call does
nothing, and a concrete completed run has cleared the guard. -/
theorem c8_non_reentrant_witness :
    AnalysisManager.startAnalysis ⟨true⟩ true true "boom" = (⟨true⟩, []) ∧
    (AnalysisManager.startAnalysis ⟨false⟩ true false "boom").1.isAnalyzing = false :=
  ⟨c8_non_reentrant.1 ⟨true⟩ true true "boom" rfl,
   c8_non_reentrant.2.2 ⟨false⟩ true false "boom" rfl⟩

/-- C9: `getSessionId` generates a `session_`-prefixed identifier on first
use and stores it under `arqv30_session_id`; any later call — by either
manager, whose implementations are identical — returns that same stored
identifier. -/
theorem c9_session_id_idempotent :
    AnalysisManager.sessionStorageKey = "arqv30_session_id" ∧
    (∀ fresh, AnalysisManager.getSessionId none fresh =
      ("session_" ++ fresh, some ("session_" ++ fresh))) ∧
    (∀ (store : Option String) (fresh g : String),
      (AsyncAnalysisManager.getSessionId
        (AnalysisManager.getSessionId store fresh).2 g).1 =
      (AnalysisManager.getSessionId store fresh).1) ∧
    AsyncAnalysisManager.getSessionId = AnalysisManager.getSessionId := by
  have hne : ∀ fresh : String, ("session_" ++ fresh) ≠ "" := by
    intro fresh h
    have hd := congrArg String.data h
    rw [String.data_append] at hd
    simp at hd
  refine ⟨rfl, ?_, ?_, rfl⟩
  · intro fresh
    rfl
  · intro store fresh g
    match store with
    | none =>
      simp [AnalysisManager.getSessionId, AsyncAnalysisManager.getSessionId,
        optTruthy, hne fresh]
    | some s =>
      by_cases hs : s = ""
      · subst hs
        simp [AnalysisManager.getSessionId, AsyncAnalysisManager.getSessionId,
          optTruthy, hne fresh]
      · simp [AnalysisManager.getSessionId, AsyncAnalysisManager.getSessionId,
          optTruthy, hs]

/-- Witness for `c9_session_id_idempotent`: from an empty store, the first
call stores the generated id and a second call returns it unchanged. -/
theorem c9_session_id_idempotent_witness :
    AnalysisManager.getSessionId none "17_abcdefghi" =
      ("session_17_abcdefghi", some "session_17_abcdefghi") ∧
    (AsyncAnalysisManager.getSessionId
      (AnalysisManager.getSessionId none "17_abcdefghi").2 "99_zzzzzzzzz").1 =
    (AnalysisManager.getSessionId none "17_abcdefghi").1 :=
  ⟨c9_session_id_idempotent.2.1 "17_abcdefghi",
   c9_session_id_idempotent.2.2.1 none "17_abcdefghi" "99_zzzzzzzzz"⟩

/-- Helper for C3: an analysis URL contains a slash, hence matches the
entry "/" of `STATIC_FILES`. -/
theorem isAnalysisRequest_implies_isStaticFile (url : String)
    (h : ServiceWorker.isAnalysisRequest url = true) :
    ServiceWorker.isStaticFile url = true := by
  have h3 : (strIncludes url "/api/analyze" = true ∨
      strIncludes url "/api/upload_attachment" = true) ∨
      strIncludes url "/generate-pdf" = true := by
    simpa [ServiceWorker.isAnalysisRequest, Bool.or_eq_true] using h
  have hslash : strIncludes url "/" = true := by
    rw [strIncludes, decide_eq_true_eq]
    rcases h3 with (h3 | h3) | h3 <;>
      rw [strIncludes, decide_eq_true_eq] at h3
    · exact List.IsInfix.trans (by decide) h3
    · exact List.IsInfix.trans (by decide) h3
    · exact List.IsInfix.trans (by decide) h3
  have hany : (ServiceWorker.STATIC_FILES.any fun file => strIncludes url file) = true := by
    rw [List.any_eq_true]
    exact ⟨"/", by decide, hslash⟩
  rw [ServiceWorker.isStaticFile, hany]
  rfl

/-- C3 (code bug): the claim says analysis endpoints are served
network-only and never from a cache, matching the fetch handler's own
comments; but `STATIC_FILES` contains "/" and `isStaticFile` tests
`url.includes(file)`, so every http(s) URL — analysis endpoints included —
is classified as a static file and served cache-first, where a cache hit
is returned without touching the network.  The `isAnalysisRequest` branch
of the dispatch is unreachable for GET requests. -/
theorem c3_analysis_requests_cache_first :
    (∀ url : String, ServiceWorker.isAnalysisRequest url = true →
      ServiceWorker.isStaticFile url = true ∧
      (strStartsWith url "http" = true →
        ServiceWorker.fetchHandler "GET" url = ServiceWorker.FetchStrategy.cacheFirst)) ∧
    (∀ (r : ServiceWorker.SWResponse) (n : Option ServiceWorker.SWResponse),
      ServiceWorker.cacheFirst (some r) n = ServiceWorker.CacheOutcome.fromCache r) := by
  constructor
  · intro url h
    have hstatic := isAnalysisRequest_implies_isStaticFile url h
    refine ⟨hstatic, ?_⟩
    intro hhttp
    rw [ServiceWorker.fetchHandler]
    simp [hstatic, hhttp]
  · intro r n
    rfl

/-- Witness for `c3_analysis_requests_cache_first`: a GET request for the
analysis endpoint `/api/analyze` is classified static and handed to the
cache-first strategy. -/
theorem c3_analysis_requests_cache_first_witness :
    ServiceWorker.isAnalysisRequest "https://example.com/api/analyze" = true ∧
    ServiceWorker.isStaticFile "https://example.com/api/analyze" = true ∧
    ServiceWorker.fetchHandler "GET" "https://example.com/api/analyze" =
      ServiceWorker.FetchStrategy.cacheFirst :=
  ⟨by decide,
   (c3_analysis_requests_cache_first.1 "https://example.com/api/analyze" (by decide)).1,
   (c3_analysis_requests_cache_first.1 "https://example.com/api/analyze" (by decide)).2
     (by decide)⟩

/-- C5 counterexample: the async manager's PDF export posts to
`/api/generate_pdf`, an endpoint outside the spec's list of seven, so not
every front-end request targets a listed endpoint, and PDF generation is
not always requested via `POST /generate-pdf`. -/
theorem c5_pdf_endpoint_counterexample :
    downloadPDFRequest ∈ frontendRequests "t1" "1" "pdf" ∧
    downloadPDFRequest.url ≠ "/generate-pdf" ∧
    ¬ ClaimedEndpoint downloadPDFRequest := by
  refine ⟨by decide, by decide, ?_⟩
  intro h
  rcases h with ⟨h1, h2⟩ | ⟨h1, h2⟩ | ⟨h1, h2⟩ | ⟨h1, h2⟩ | ⟨h1, h2⟩ | ⟨h1, h2⟩ | ⟨h1, h2⟩ <;>
    first
      | exact absurd h1 (by decide)
      | exact absurd h2 (by decide)

/-- C5 (amended): every request issued by the front-end scripts targets
one of the seven listed endpoints or one of the three additional ones the
code also uses: `POST /api/generate_pdf` (async PDF export),
`POST /api/validate_apis`, and `GET /api/analysis/:id/download`. -/
theorem c5_amended_endpoints :
    ∀ (tid aid fmt : String), ∀ r ∈ frontendRequests tid aid fmt,
      ClaimedEndpoint r ∨
      (r.method = "POST" ∧ r.url = "/api/generate_pdf") ∨
      (r.method = "POST" ∧ r.url = "/api/validate_apis") ∨
      (r.method = "GET" ∧
        r.url = "/api/analysis/" ++ aid ++ "/download?format=" ++ fmt) := by
  intro tid aid fmt r hr
  simp only [frontendRequests, List.mem_cons, List.not_mem_nil, or_false] at hr
  rcases hr with rfl | rfl | rfl | rfl | rfl | rfl | rfl | rfl | rfl | rfl
  · exact Or.inl (Or.inl ⟨rfl, rfl⟩)
  · exact Or.inl (Or.inr (Or.inr (Or.inr (Or.inr (Or.inr (Or.inl ⟨rfl, rfl⟩))))))
  · exact Or.inl (Or.inr (Or.inl ⟨rfl, rfl⟩))
  · exact Or.inl (Or.inr (Or.inr (Or.inl ⟨rfl, tid, rfl⟩)))
  · exact Or.inr (Or.inl ⟨rfl, rfl⟩)
  · exact Or.inl (Or.inr (Or.inr (Or.inr (Or.inr (Or.inl ⟨rfl, rfl⟩)))))
  · exact Or.inr (Or.inr (Or.inr ⟨rfl, rfl⟩))
  · exact Or.inr (Or.inr (Or.inl ⟨rfl, rfl⟩))
  · exact Or.inl (Or.inr (Or.inr (Or.inr (Or.inr (Or.inr (Or.inr ⟨rfl, rfl⟩))))))
  · exact Or.inl (Or.inr (Or.inr (Or.inr (Or.inl ⟨rfl, rfl⟩))))

/-- Witness for `c5_amended_endpoints` at the `POST /api/analyze` call
site. -/
theorem c5_amended_endpoints_witness :
    ClaimedEndpoint ⟨"POST", "/api/analyze"⟩ ∨
    ("POST" = "POST" ∧ "/api/analyze" = "/api/generate_pdf") ∨
    ("POST" = "POST" ∧ "/api/analyze" = "/api/validate_apis") ∨
    ("POST" = "GET" ∧
      "/api/analyze" = "/api/analysis/" ++ "a" ++ "/download?format=" ++ "json") :=
  c5_amended_endpoints "t" "a" "json" ⟨"POST", "/api/analyze"⟩ (by decide)

/-- C7 (code bug): the schema does consist of exactly the three entities
and `sessions.session_id` is UNIQUE NOT NULL, and the analyses trigger
sets `updated_at`; but the sessions trigger executes the same
`update_updated_at_column` function, which assigns `NEW.updated_at` — a
column the `sessions` table does not have — instead of `last_activity`,
so an UPDATE on `sessions` raises a runtime error and `last_activity` is
never maintained by the trigger. -/
theorem c7_sessions_trigger_bug :
    Schema.tables = ["analyses", "sessions", "attachments"] ∧
    Schema.sessionsSessionIdConstraints.isUnique = true ∧
    Schema.sessionsSessionIdConstraints.isNotNull = true ∧
    (∀ (row : List (String × String)) (now : String),
      Schema.fireTrigger Schema.update_analyses_updated_at
          Schema.analysesColumns row now =
        some (Schema.setColumn row "updated_at" now)) ∧
    Schema.update_sessions_last_activity.functionAssigns = "updated_at" ∧
    Schema.update_sessions_last_activity.functionAssigns ≠ "last_activity" ∧
    Schema.sessionsColumns.contains "last_activity" = true ∧
    Schema.sessionsColumns.contains "updated_at" = false ∧
    (∀ (row : List (String × String)) (now : String),
      Schema.fireTrigger Schema.update_sessions_last_activity
          Schema.sessionsColumns row now = none) := by
  refine ⟨rfl, rfl, rfl, fun row now => rfl, rfl, by decide, by decide, by decide,
    fun row now => rfl⟩

/-- C10: the unit index of `formatFileSize` stays inside its unit array on
the whole intended domain: `0` renders as "0 Bytes", and for every `bytes`
with `1 ≤ bytes < 1024^4` (`ARQVApp`, four units) respectively
`1 ≤ bytes < 1024^5` (`FileUploadManager`, five units including TB) the
result string ends in a unit actually present in the array. -/
theorem c10_format_file_size_safe :
    ARQVApp.formatFileSize 0 = "0 Bytes" ∧
    FileUploadManager.formatFileSize 0 = "0 Bytes" ∧
    (∀ b : Nat, 1 ≤ b → b < 1024 ^ 4 →
      ∃ h : ARQVApp.unitIndex b < ARQVApp.sizes.length,
        ARQVApp.formatFileSize b =
          ARQVApp.numPart b ++ " " ++ ARQVApp.sizes.get ⟨ARQVApp.unitIndex b, h⟩) ∧
    (∀ b : Nat, 1 ≤ b → b < 1024 ^ 5 →
      ∃ h : ARQVApp.unitIndex b < FileUploadManager.sizes.length,
        FileUploadManager.formatFileSize b =
          ARQVApp.numPart b ++ " "
            ++ FileUploadManager.sizes.get ⟨ARQVApp.unitIndex b, h⟩) := by
  refine ⟨rfl, rfl, ?_, ?_⟩
  · intro b h1 h4
    have hne : b ≠ 0 := by omega
    have hlt : ARQVApp.unitIndex b < 4 := Nat.log_lt_of_lt_pow hne h4
    refine ⟨hlt, ?_⟩
    rw [ARQVApp.formatFileSize, if_neg hne,
      List.getD_eq_getElem ARQVApp.sizes "undefined" hlt]
    rfl
  · intro b h1 h5
    have hne : b ≠ 0 := by omega
    have hlt : ARQVApp.unitIndex b < 5 := Nat.log_lt_of_lt_pow hne h5
    refine ⟨hlt, ?_⟩
    rw [FileUploadManager.formatFileSize, if_neg hne,
      List.getD_eq_getElem FileUploadManager.sizes "undefined" hlt]
    rfl

/-- Witness for `c10_format_file_size_safe` at one mebibyte and at one
tebibyte. -/
theorem c10_format_file_size_safe_witness :
    (∃ h : ARQVApp.unitIndex 1048576 < ARQVApp.sizes.length,
      ARQVApp.formatFileSize 1048576 =
        ARQVApp.numPart 1048576 ++ " "
          ++ ARQVApp.sizes.get ⟨ARQVApp.unitIndex 1048576, h⟩) ∧
    (∃ h : ARQVApp.unitIndex 1099511627776 < FileUploadManager.sizes.length,
      FileUploadManager.formatFileSize 1099511627776 =
        ARQVApp.numPart 1099511627776 ++ " "
          ++ FileUploadManager.sizes.get ⟨ARQVApp.unitIndex 1099511627776, h⟩) :=
  ⟨c10_format_file_size_safe.2.2.1 1048576 (by decide) (by norm_num),
   c10_format_file_size_safe.2.2.2 1099511627776 (by decide) (by norm_num)⟩
